import Mathlib

/-!
Verification of the resilient Strava API client and the sync/enrichment
orchestration (repository joshdurbin/strava-mcp), as a shallow embedding of
the Go source in Lean 4.

The embedding covers:
- the retry classification policy of the HTTP client
  (internal/strava/client.go, newClientWithConfig CheckRetry);
- the rate-limit header parsing and quota merging
  (parseRateLimitHeaders, minPositive);
- the 15-minute window reset computation (timeUntilNext15MinWindow);
- the paginated full-sync loop (Client.FetchAllActivities);
- the response handling of page fetches and of the per-activity zone fetch
  (Client.fetchActivitiesPage, Client.FetchActivityZones);
- the persistence loops (sync.Service.Sync, workers.ActivitySyncer);
- the zone enrichment batch loop with its consecutive-rate-limit circuit
  breaker (sync.Service.SyncZones);
- the continuous zone sync driver with its permanent premium-required
  disable flag (workers.ZoneSyncer.syncZonesContinuously);
- the zone bucket persistence (sync.Service.SyncZonesForActivity).

Go machine integers are modelled as Nat/Int (header counters and wall-clock
arithmetic stay far below 2^63, so overflow is not observable in the
modelled ranges); Go strings are modelled as List Char; Go float64 values
that only flow into an int64 truncation are modelled as rationals;
fallible operations return Except or an explicit error component.
-/

namespace StravaMCP

/-! ## Wall-clock model (time.Time fields used by the source) -/

/-- Model of the fields of a Go time.Time that the quota-window code reads:
hour, minute and second of the day plus the nanosecond part (UTC). -/
structure GoTime where
  hour : Nat
  minute : Nat
  second : Nat
  nano : Nat
  deriving DecidableEq, Repr

/-- Validity bounds of a wall-clock instant. -/
def GoTime.Valid (t : GoTime) : Prop :=
  t.hour < 24 ∧ t.minute < 60 ∧ t.second < 60 ∧ t.nano < 1000000000

instance (t : GoTime) : Decidable t.Valid := by
  unfold GoTime.Valid; infer_instance

/-- Nanoseconds per second (Go time.Second). -/
def nsPerSecond : Int := 1000000000

/-- Nanoseconds per minute (Go time.Minute). -/
def nsPerMinute : Int := 60000000000

/-- Embedding of timeUntilNext15MinWindow (client.go): duration in
nanoseconds until the next 15-minute boundary, plus a 2-second buffer. -/
def timeUntilNext15MinWindow (t : GoTime) : Int :=
  let minute := t.minute
  let nextBoundary := ((minute / 15) + 1) * 15
  let nextBoundary := if nextBoundary ≥ 60 then 0 else nextBoundary
  let minutesUntil : Int :=
    if nextBoundary = 0 then 60 - (minute : Int) else (nextBoundary : Int) - (minute : Int)
  minutesUntil * nsPerMinute - (t.second : Int) * nsPerSecond - (t.nano : Int)
    + 2 * nsPerSecond

/-- Embedding of timeUntilMidnightUTC (client.go): duration in nanoseconds
until the next UTC midnight, plus a 2-second buffer. -/
def timeUntilMidnightUTC (t : GoTime) : Int :=
  ((86400 : Int) - (3600 * (t.hour : Int) + 60 * (t.minute : Int) + (t.second : Int)))
      * nsPerSecond - (t.nano : Int) + 2 * nsPerSecond

/-! ## Rate limit header parsing (client.go parseRateLimitHeaders) -/

/-- Embedding of minPositive (client.go): minimum of two values preferring
positive ones; a non-positive value defers to the other. -/
def minPositive (a b : Int) : Int :=
  if a ≤ 0 then b
  else if b ≤ 0 then a
  else if a < b then a
  else b

/-- Value of a decimal digit string read left to right (helper for the
strconv.Atoi model). -/
def digitsVal (s : List Char) : Nat :=
  s.foldl (fun acc c => acc * 10 + (c.toNat - 48)) 0

/-- Model of the Go pattern `v, _ = strconv.Atoi(s)`: the parsed integer for
a well-formed decimal string (optional sign), and 0 when Atoi errors.
Header values stay far below 2^63, so overflow is not modelled. -/
def goAtoi (s : List Char) : Int :=
  match s with
  | [] => 0
  | c :: rest =>
    if c = '+' then
      (if rest ≠ [] ∧ rest.all Char.isDigit then (digitsVal rest : Int) else 0)
    else if c = '-' then
      (if rest ≠ [] ∧ rest.all Char.isDigit then -(digitsVal rest : Int) else 0)
    else if (c :: rest).all Char.isDigit then (digitsVal (c :: rest) : Int)
    else 0

/-- Model of strings.Split(s, ",") on a string viewed as a character list:
splits at every comma, keeping empty parts. -/
def splitOnComma : List Char → List (List Char)
  | [] => [[]]
  | c :: rest =>
    if c = ',' then [] :: splitOnComma rest
    else
      match splitOnComma rest with
      | [] => [[c]]
      | p :: ps => (c :: p) :: ps

/-- Embedding of one header-pair parse block of parseRateLimitHeaders: an
absent/empty header yields (0, 0); otherwise the string is split on commas
and the first two parts are Atoi-parsed (missing second part yields 0). -/
def parsePairHeader (h : List Char) : Int × Int :=
  if h = [] then (0, 0)
  else
    let parts := splitOnComma h
    let v1 := match parts with
      | [] => 0
      | p :: _ => goAtoi p
    let v2 := match parts with
      | _ :: p :: _ => goAtoi p
      | _ => 0
    (v1, v2)

/-- Embedding of the RateLimitInfo struct (client.go). Durations are in
nanoseconds. -/
structure RateLimitInfo where
  limit15Min : Int
  usage15Min : Int
  limitDaily : Int
  usageDaily : Int
  isRateLimited : Bool
  timeUntil15MinReset : Int
  timeUntilDailyReset : Int
  recommendedWait : Int
  deriving DecidableEq, Repr

/-- Buffer kept from rate limit boundaries (client.go rateLimitBuffer). -/
def rateLimitBuffer : Int := 5

/-- Embedding of RateLimitInfo.IsApproaching15MinLimit. -/
def RateLimitInfo.isApproaching15MinLimit (info : RateLimitInfo) : Bool :=
  if info.limit15Min = 0 then false
  else decide (info.usage15Min ≥ info.limit15Min - rateLimitBuffer)

/-- Embedding of RateLimitInfo.IsApproachingDailyLimit. -/
def RateLimitInfo.isApproachingDailyLimit (info : RateLimitInfo) : Bool :=
  if info.limitDaily = 0 then false
  else decide (info.usageDaily ≥ info.limitDaily - rateLimitBuffer)

/-- Embedding of parseRateLimitHeaders (client.go). The four arguments are
the values of the X-RateLimit-Limit, X-RateLimit-Usage, X-ReadRateLimit-Limit
and X-ReadRateLimit-Usage headers ([] for an absent header). -/
def parseRateLimitHeaders (generalLimit generalUsage readLimit readUsage : List Char)
    (now : GoTime) : RateLimitInfo :=
  let gl := parsePairHeader generalLimit
  let gu := parsePairHeader generalUsage
  let rl := parsePairHeader readLimit
  let ru := parsePairHeader readUsage
  let info : RateLimitInfo :=
    { limit15Min := minPositive gl.1 rl.1
      limitDaily := minPositive gl.2 rl.2
      usage15Min := max gu.1 ru.1
      usageDaily := max gu.2 ru.2
      isRateLimited := false
      timeUntil15MinReset := timeUntilNext15MinWindow now
      timeUntilDailyReset := timeUntilMidnightUTC now
      recommendedWait := 0 }
  if info.limit15Min > 0 ∧ info.usage15Min ≥ info.limit15Min then
    { info with isRateLimited := true, recommendedWait := info.timeUntil15MinReset }
  else if info.limitDaily > 0 ∧ info.usageDaily ≥ info.limitDaily then
    { info with isRateLimited := true, recommendedWait := info.timeUntilDailyReset }
  else if info.isApproaching15MinLimit then
    { info with recommendedWait := info.timeUntil15MinReset }
  else if info.isApproachingDailyLimit then
    { info with recommendedWait := info.timeUntilDailyReset }
  else info

/-! ## Retry classification (client.go newClientWithConfig CheckRetry) -/

/-- Model of the context error observed by CheckRetry (ctx.Err()). -/
inductive CtxError where
  | canceled
  | deadlineExceeded
  deriving DecidableEq, Repr

/-- Input of a CheckRetry evaluation: either a transport/connection failure
(err != nil) or an HTTP response with its status code. -/
inductive CheckRetryInput where
  | transportError
  | response (statusCode : Nat)
  deriving DecidableEq, Repr

/-- Embedding of the custom CheckRetry policy (client.go lines 208-240).
Returns (shouldRetry, error), mirroring the Go (bool, error) pair. -/
def checkRetry (ctxErr : Option CtxError) (input : CheckRetryInput) :
    Bool × Option CtxError :=
  match ctxErr with
  | some e => (false, some e)
  | none =>
    match input with
    | .transportError => (true, none)
    | .response status =>
      if status = 402 then (false, none)
      else if status = 404 then (false, none)
      else if status = 429 then (true, none)
      else if status ≥ 500 then (true, none)
      else (false, none)

/-! ## Paginated full sync (client.go Client.FetchAllActivities) -/

/-- Minimal embedding of the Activity struct: the fields the sync loops
depend on for identity. -/
structure Activity where
  id : Int
  name : String
  deriving DecidableEq, Repr

/-- Outcome of one page fetch through the resilient client, as observed by
the FetchAllActivities loop: a decoded page of activities, or a page-level
error after retries are exhausted (in which case the returned activity
slice is nil). -/
inductive PageResult where
  | ok (activities : List Activity)
  | err
  deriving DecidableEq, Repr

/-- Embedding of the FetchResult value passed to the progress callback
(activities of the page, its 1-based page number, and the cumulative count
including this page). -/
structure FetchResult where
  activities : List Activity
  page : Nat
  totalFetched : Nat
  deriving DecidableEq, Repr

/-- Loop body of Client.FetchAllActivities (client.go lines 408-439), with
the page responses supplied as a list (pages beyond the list return an
empty page, the normal end of data). Returns the accumulated activities,
the progress-callback invocations in order, and whether the loop ended
with an error. -/
def fetchAllAux : List PageResult → Nat → List Activity →
    List Activity × List FetchResult × Bool
  | [], page, acc =>
    (acc, [{ activities := [], page := page, totalFetched := acc.length }], false)
  | .err :: _, page, acc =>
    (acc, [{ activities := [], page := page, totalFetched := acc.length }], true)
  | .ok acts :: rest, page, acc =>
    let r : FetchResult :=
      { activities := acts, page := page, totalFetched := acc.length + acts.length }
    if acts.isEmpty then (acc, [r], false)
    else
      let next := fetchAllAux rest (page + 1) (acc ++ acts)
      (next.1, r :: next.2.1, next.2.2)

/-- Embedding of Client.FetchAllActivities: the page loop started at page 1
with an empty accumulator. -/
def fetchAllActivities (env : List PageResult) :
    List Activity × List FetchResult × Bool :=
  fetchAllAux env 1 []

/-! ## Response handling of the fetch operations (client.go) -/

/-- Errors surfaced by the fetch operations. -/
inductive FetchErr where
  | premiumRequired
  | rateLimited
  | unexpectedStatus (code : Nat)
  | decodeError
  deriving DecidableEq, Repr

/-- Embedding of the zone model of the API (ActivityZone). Time in a zone
bucket arrives as a float64; every float64 value is an exact rational, so
the field is modelled as a rational number. -/
structure TimedZoneRange where
  min : Int
  max : Int
  time : ℚ
  deriving DecidableEq, Repr

/-- Embedding of the ActivityZone struct. -/
structure ActivityZone where
  zoneType : String
  sensorBased : Bool
  distributionBuckets : List TimedZoneRange
  deriving DecidableEq, Repr

/-- Embedding of the response handling of Client.FetchActivityZones
(client.go lines 497-524): 402 surfaces the premium sentinel, 429 the
rate-limit sentinel, 404 returns nil zones with nil error, any other
non-200 status is an error, and a 200 body is decoded. -/
def fetchActivityZonesResp (status : Nat) (decoded : Except Unit (List ActivityZone)) :
    Except FetchErr (Option (List ActivityZone)) :=
  if status = 402 then .error .premiumRequired
  else if status = 429 then .error .rateLimited
  else if status = 404 then .ok none
  else if status ≠ 200 then .error (.unexpectedStatus status)
  else
    match decoded with
    | .error _ => .error .decodeError
    | .ok zones => .ok (some zones)

/-- Embedding of the response handling of Client.fetchActivitiesPage
(client.go lines 546-563): 429 surfaces the rate-limit sentinel, any other
non-200 status (404 included) is an unexpected-status error, and a 200
body is decoded. -/
def fetchActivitiesPageResp (status : Nat) (decoded : Except Unit (List Activity)) :
    Except FetchErr (List Activity) :=
  if status = 429 then .error .rateLimited
  else if status ≠ 200 then .error (.unexpectedStatus status)
  else
    match decoded with
    | .error _ => .error .decodeError
    | .ok acts => .ok acts

/-! ## Persistence loops (sync.go Service.Sync, workers.go syncActivities) -/

/-- One fetched record at the persistence step: whether its upsert succeeds
and whether the shared cancellation signal fires at the loop check before
it (the latter only exists in the worker loop). -/
structure PersistItem where
  id : Int
  persistOk : Bool
  cancelledBefore : Bool
  deriving DecidableEq, Repr

/-- Embedding of the persistence loop of sync.Service.Sync (sync.go lines
53-62): the first failing upsert returns the error immediately. Result is
(records attempted, records saved, whether an error was returned). -/
def serviceSyncPersist : List PersistItem → Nat × Nat × Bool
  | [] => (0, 0, false)
  | it :: rest =>
    if it.persistOk then
      let r := serviceSyncPersist rest
      (r.1 + 1, r.2.1 + 1, r.2.2)
    else (1, 0, true)

/-- Embedding of the persistence loop of workers.ActivitySyncer.syncActivities
(workers.go lines 211-236): a failing upsert is logged and skipped, the
loop continues; a cancellation check precedes each record. Result is
(records attempted, records saved, whether cancellation stopped the loop). -/
def workerPersistLoop : List PersistItem → Nat × Nat × Bool
  | [] => (0, 0, false)
  | it :: rest =>
    if it.cancelledBefore then (0, 0, true)
    else if it.persistOk then
      let r := workerPersistLoop rest
      (r.1 + 1, r.2.1 + 1, r.2.2)
    else
      let r := workerPersistLoop rest
      (r.1 + 1, r.2.1, r.2.2)

/-! ## Zone enrichment batch (sync.go Service.SyncZones) -/

/-- Outcome of one SyncZonesForActivity attempt as seen by the SyncZones
loop. -/
inductive ItemOutcome where
  | success
  | premiumRequired
  | rateLimited
  | otherError
  deriving DecidableEq, Repr

/-- Environment of one backlog item: the outcome of its attempt and whether
the cancellation signal fires during the pacing delay after a success. -/
structure ItemEnv where
  outcome : ItemOutcome
  pacingCancelled : Bool
  deriving DecidableEq, Repr

/-- Error returned by a SyncZones run. -/
inductive ZoneSyncErr where
  | premiumRequired
  | rateLimited
  | ctxCancelled
  deriving DecidableEq, Repr

/-- Result of a SyncZones run: the count synced, the 0-based backlog indices
attempted in order, and the returned error if any. -/
structure SyncZonesResult where
  synced : Nat
  attempts : List Nat
  err : Option ZoneSyncErr
  deriving DecidableEq, Repr

/-- Threshold of the consecutive-rate-limit circuit breaker (sync.go
maxConsecutiveRateLimits). -/
def maxConsecutiveRateLimits : Nat := 3

/-- Loop body of sync.Service.SyncZones (sync.go lines 222-258): premium
aborts the run; a rate-limited item raises the consecutive counter and, at
the threshold, aborts the run returning the count synced so far, otherwise
the loop continues with the next item; any other error is logged, resets
the counter and the loop continues; a success resets the counter,
increments the count and is followed by a cancellable pacing delay. -/
def syncZonesAux : List ItemEnv → Nat → Nat → Nat → SyncZonesResult
  | [], _, synced, _ => { synced := synced, attempts := [], err := none }
  | it :: rest, idx, synced, consecutiveRateLimits =>
    match it.outcome with
    | .premiumRequired =>
      { synced := synced, attempts := [idx], err := some .premiumRequired }
    | .rateLimited =>
      let c := consecutiveRateLimits + 1
      if c ≥ maxConsecutiveRateLimits then
        { synced := synced, attempts := [idx], err := some .rateLimited }
      else
        let r := syncZonesAux rest (idx + 1) synced c
        { r with attempts := idx :: r.attempts }
    | .otherError =>
      let r := syncZonesAux rest (idx + 1) synced 0
      { r with attempts := idx :: r.attempts }
    | .success =>
      if it.pacingCancelled then
        { synced := synced + 1, attempts := [idx], err := some .ctxCancelled }
      else
        let r := syncZonesAux rest (idx + 1) (synced + 1) 0
        { r with attempts := idx :: r.attempts }

/-- Embedding of one sync.Service.SyncZones run over a fetched backlog: the
loop starts at the first item with zero synced and a zero consecutive
rate-limit counter (both are locals of the run). -/
def syncZonesRun (backlog : List ItemEnv) : SyncZonesResult :=
  syncZonesAux backlog 0 0 0

/-- Backlog item whose attempt succeeds without cancellation. -/
def sOkItem : ItemEnv := { outcome := .success, pacingCancelled := false }

/-- Backlog item whose attempt is rate limited. -/
def rlItem : ItemEnv := { outcome := .rateLimited, pacingCancelled := false }

/-! ## Continuous zone sync driver (workers.go ZoneSyncer) -/

/-- Outcome of one syncService.SyncZones batch call as seen by the
continuous loop. -/
inductive BatchOutcome where
  | success (synced : Nat)
  | premiumRequired
  | rateLimited
  | otherError
  deriving DecidableEq, Repr

/-- Environment of one iteration of the continuous loop: the approaching
flags read from the client's rate limit snapshot, whether a cancellable
wait performed in this iteration is cut short by cancellation, the batch
outcome, and whether the pacing delay after a full batch is cancelled. -/
structure ZoneStepEnv where
  approachingDaily : Bool
  approaching15 : Bool
  waitCancelled : Bool
  batch : BatchOutcome
  pacingCancelled : Bool
  deriving DecidableEq, Repr

/-- Persistent state of the workers.ZoneSyncer across runs: the
premium-required flag (never reset anywhere in the source) and the
configured batch size. -/
structure ZoneSyncerState where
  premiumRequired : Bool
  batchSize : Nat
  deriving DecidableEq, Repr

/-- Environment of one syncZonesContinuously run: the result of the
CountActivitiesWithoutZones query (or its failure), the token acquisition
failure flag, and the per-iteration environments. -/
structure RunEnv where
  countWithoutZones : Int
  countErr : Bool
  tokenErr : Bool
  steps : List ZoneStepEnv
  deriving DecidableEq, Repr

/-- Loop body of workers.ZoneSyncer.syncZonesContinuously (workers.go lines
416-507). Consumes one step environment per iteration; an exhausted
environment models the cancellation of the run. Returns whether a
premium-required outcome was observed and how many SyncZones batch calls
were issued. -/
def zoneLoop (batchSize : Nat) : List ZoneStepEnv → Int → Bool × Nat
  | [], _ => (false, 0)
  | st :: rest, withoutZones =>
    if st.approachingDaily then (false, 0)
    else if st.approaching15 then
      if st.waitCancelled then (false, 0)
      else zoneLoop batchSize rest withoutZones
    else
      match st.batch with
      | .premiumRequired => (true, 1)
      | .rateLimited =>
        if st.waitCancelled then (false, 1)
        else
          let r := zoneLoop batchSize rest withoutZones
          (r.1, r.2 + 1)
      | .otherError => (false, 1)
      | .success synced =>
        let withoutZones := withoutZones - (synced : Int)
        if synced < batchSize then (false, 1)
        else if withoutZones ≤ 0 then (false, 1)
        else if st.pacingCancelled then (false, 1)
        else
          let r := zoneLoop batchSize rest withoutZones
          (r.1, r.2 + 1)

/-- Embedding of workers.ZoneSyncer.syncZonesContinuously (workers.go lines
379-508): a run skipped while the premium flag is set, or stopped early by
a count query failure, an empty backlog, or a token failure, issues no
batch call; otherwise the loop runs and a premium-required observation
sets the persistent flag. Returns the new syncer state and the number of
SyncZones batch calls issued. -/
def syncZonesContinuously (s : ZoneSyncerState) (e : RunEnv) : ZoneSyncerState × Nat :=
  if s.premiumRequired then (s, 0)
  else if e.countErr then (s, 0)
  else if e.countWithoutZones = 0 then (s, 0)
  else if e.tokenErr then (s, 0)
  else
    let r := zoneLoop s.batchSize e.steps e.countWithoutZones
    (if r.1 then { s with premiumRequired := true } else s, r.2)

/-- Scheduling harness of workers.ZoneSyncer.Run: the runs execute in
sequence against the same syncer state. Returns the final state and the
total number of SyncZones batch calls across the runs. -/
def runSequence : ZoneSyncerState → List RunEnv → ZoneSyncerState × Nat
  | s, [] => (s, 0)
  | s, e :: es =>
    let r := syncZonesContinuously s e
    let rs := runSequence r.1 es
    (rs.1, r.2 + rs.2)

/-! ## Zone bucket persistence (sync.go Service.SyncZonesForActivity) -/

/-- Row written by a CreateZoneBucket call. -/
structure ZoneBucketRow where
  activityZoneId : Int
  zoneNumber : Int
  minValue : Int
  maxValue : Int
  timeSeconds : Int
  deriving DecidableEq, Repr

/-- Model of the Go conversion int64(f) for a float64 f: truncation of the
rational value toward zero (num and den of a rational are coprime with
positive den, so T-division of num by den is exactly that truncation). -/
def goInt64OfFloat (q : ℚ) : Int :=
  Int.tdiv q.num (q.den : Int)

/-- Embedding of the bucket insertion loop of Service.SyncZonesForActivity
(sync.go lines 187-198): the bucket at 0-based position i is written with
zone number i+1 and its time converted with int64(bucket.Time). -/
def bucketRows (zoneId : Int) (buckets : List TimedZoneRange) : List ZoneBucketRow :=
  buckets.enum.map fun p =>
    { activityZoneId := zoneId
      zoneNumber := (p.1 : Int) + 1
      minValue := p.2.min
      maxValue := p.2.max
      timeSeconds := goInt64OfFloat p.2.time }

/-- Database operations issued by Service.SyncZonesForActivity on its
success path. -/
inductive DBOp where
  | createActivityZone (activityId : Int) (zoneType : String) (sensorBased : Int)
  | deleteZoneBuckets (zoneId : Int)
  | createZoneBucket (row : ZoneBucketRow)
  deriving DecidableEq, Repr

/-- Embedding of the per-zone persistence of Service.SyncZonesForActivity
(sync.go lines 166-199) on its success path, with the zone row id returned
by each CreateActivityZone call supplied alongside the zone: upsert the
zone row, delete its existing buckets, then insert the fetched buckets. -/
def syncZonesForActivityOps (activityId : Int) (zones : List (ActivityZone × Int)) :
    List DBOp :=
  (zones.map fun z =>
    DBOp.createActivityZone activityId z.1.zoneType (if z.1.sensorBased then 1 else 0)
      :: DBOp.deleteZoneBuckets z.2
      :: (bucketRows z.2 z.1.distributionBuckets).map DBOp.createZoneBucket).flatten

/-- Truncation toward zero of a rational value, the reference semantics of
the Go conversion int64(f): the floor for nonnegative values and the
ceiling for negative ones. -/
def ratTruncTowardZero (q : ℚ) : Int :=
  if 0 ≤ q then ⌊q⌋ else ⌈q⌉

/-- Spec-side combination of two limit sources: the minimum of the two
limits, a zero/absent (non-positive) limit being ignored as no limit
known. -/
def specRestrictiveLimit (a b : Int) : Int :=
  if 0 < a ∧ 0 < b then min a b
  else if 0 < a then a
  else if 0 < b then b
  else 0

/-! ## Theorems -/

/-- C1: the retry classification matches the spec exactly: a signalled
context returns the cancellation error without retrying; a transport
failure is retried; a 402 feature-unavailable status is never retried; a
404 not-found status is never retried; a 429 rate-limited status is
retried; every 5xx status is retried. -/
theorem checkRetry_classification (e : CtxError) (inp : CheckRetryInput) (s : Nat)
    (h5 : 500 ≤ s) (h6 : s ≤ 599) :
    checkRetry (some e) inp = (false, some e) ∧
    checkRetry none .transportError = (true, none) ∧
    checkRetry none (.response 402) = (false, none) ∧
    checkRetry none (.response 404) = (false, none) ∧
    checkRetry none (.response 429) = (true, none) ∧
    checkRetry none (.response s) = (true, none) := by
  refine ⟨rfl, rfl, rfl, rfl, rfl, ?_⟩
  have h1 : ¬ s = 402 := by omega
  have h2 : ¬ s = 404 := by omega
  have h3 : ¬ s = 429 := by omega
  simp [checkRetry, h1, h2, h3, h5]

/-- Witness for checkRetry_classification at the cancellation error, a
transport failure, and status 503. -/
theorem checkRetry_classification_witness :
    checkRetry (some .canceled) .transportError = (false, some .canceled) ∧
    checkRetry none .transportError = (true, none) ∧
    checkRetry none (.response 402) = (false, none) ∧
    checkRetry none (.response 404) = (false, none) ∧
    checkRetry none (.response 429) = (true, none) ∧
    checkRetry none (.response 503) = (true, none) :=
  checkRetry_classification .canceled .transportError 503 (by decide) (by decide)

/-- C8 counterexample: at minute 59, second 35 of the hour the computed
wait until the next 15-minute boundary is 27 seconds, below the claimed
30-second lower bound for every clock time at minute 59. -/
theorem timeUntilNext15MinWindow_minute59_counterexample :
    timeUntilNext15MinWindow { hour := 10, minute := 59, second := 35, nano := 0 } =
      27 * nsPerSecond ∧
    27 * nsPerSecond < 30 * nsPerSecond := by
  refine ⟨?_, by decide⟩
  decide

/-- C8 amended: for every valid clock time at minute 0 the wait until the
next short-window reset is between 14 and 16 minutes; at minute 59 it is
greater than 2 seconds and at most 2 minutes (it never falls below 2
seconds, but it does drop under 30 seconds late in the minute). -/
theorem timeUntilNext15MinWindow_bounds (t : GoTime) (hv : t.Valid) :
    (t.minute = 0 →
      14 * nsPerMinute ≤ timeUntilNext15MinWindow t ∧
      timeUntilNext15MinWindow t ≤ 16 * nsPerMinute) ∧
    (t.minute = 59 →
      2 * nsPerSecond < timeUntilNext15MinWindow t ∧
      timeUntilNext15MinWindow t ≤ 2 * nsPerMinute) := by
  obtain ⟨-, hm, hs, hn⟩ := hv
  constructor
  · intro h0
    simp only [timeUntilNext15MinWindow, h0, nsPerMinute, nsPerSecond]
    norm_num
    omega
  · intro h59
    simp only [timeUntilNext15MinWindow, h59, nsPerMinute, nsPerSecond]
    norm_num
    omega

/-- Witness for timeUntilNext15MinWindow_bounds at 10:00:30.000000500. -/
theorem timeUntilNext15MinWindow_bounds_witness :
    14 * nsPerMinute ≤
      timeUntilNext15MinWindow { hour := 10, minute := 0, second := 30, nano := 500 } ∧
    timeUntilNext15MinWindow { hour := 10, minute := 0, second := 30, nano := 500 } ≤
      16 * nsPerMinute :=
  (timeUntilNext15MinWindow_bounds
    { hour := 10, minute := 0, second := 30, nano := 500 } (by decide)).1 rfl

/-- C9 counterexample: a 404 response to a page fetch surfaces as an
unexpected-status error to the caller, not as an empty result with a nil
error. -/
theorem fetchActivitiesPage_404_counterexample :
    fetchActivitiesPageResp 404 (.ok []) = .error (.unexpectedStatus 404) := rfl

/-- C9 amended: the per-record zone fetch treats a 404 as no data (nil
zones, nil error), while a 404 on a page fetch surfaces as an
unexpected-status error. -/
theorem fetch404_semantics (dz : Except Unit (List ActivityZone))
    (da : Except Unit (List Activity)) :
    fetchActivityZonesResp 404 dz = .ok none ∧
    fetchActivitiesPageResp 404 da = .error (.unexpectedStatus 404) :=
  ⟨rfl, rfl⟩

/-- The embedded int64 conversion is exactly truncation toward zero. -/
theorem goInt64OfFloat_eq_trunc (q : ℚ) : goInt64OfFloat q = ratTruncTowardZero q := by
  rcases le_or_lt 0 q with h | h
  · rw [ratTruncTowardZero, if_pos h, Rat.floor_def, goInt64OfFloat]
    exact Int.tdiv_eq_ediv (Rat.num_nonneg.mpr h) (Int.ofNat_nonneg _)
  · rw [ratTruncTowardZero, if_neg (not_le.mpr h), goInt64OfFloat]
    have hceil : (⌈q⌉ : Int) = -⌊-q⌋ := by rw [Int.floor_neg]; ring
    have hqn : q.num < 0 := by
      by_contra hc
      exact absurd (Rat.num_nonneg.mp (by omega)) (not_le.mpr h)
    have h1 : q.num.tdiv (q.den : Int) = -((-q.num).tdiv (q.den : Int)) := by
      rw [Int.neg_tdiv]; ring
    rw [hceil, Rat.floor_def, Rat.num_neg_eq_neg_num, Rat.neg_den, h1,
      Int.tdiv_eq_ediv (by omega) (Int.ofNat_nonneg _)]

/-- C10: the bucket received at 0-based position i is stored with zone
number i+1 — the stored zone numbers are exactly 1..n in fetch order — and
its floating-point time value is stored truncated toward zero to whole
seconds. -/
theorem bucketRows_spec (zoneId : Int) (buckets : List TimedZoneRange)
    (i : Nat) (b : TimedZoneRange) (h : buckets[i]? = some b) :
    (bucketRows zoneId buckets).map ZoneBucketRow.zoneNumber =
      (List.range buckets.length).map (fun (j : Nat) => (j : Int) + 1) ∧
    (bucketRows zoneId buckets)[i]? = some
      { activityZoneId := zoneId
        zoneNumber := (i : Int) + 1
        minValue := b.min
        maxValue := b.max
        timeSeconds := ratTruncTowardZero b.time } := by
  constructor
  · apply List.ext_getElem
    · simp [bucketRows]
    · intro n h1 h2
      simp [bucketRows, List.getElem_map, List.getElem_enum, List.getElem_range]
  · rw [bucketRows, List.getElem?_map, List.getElem?_enum, h]
    simp [goInt64OfFloat_eq_trunc]

/-- Witness for bucketRows_spec: two buckets, the second with time 7/2
seconds; it is stored as zone number 2 with 3 whole seconds. -/
theorem bucketRows_spec_witness :
    (bucketRows 5 [{ min := 90, max := 120, time := -7/2 },
                   { min := 120, max := 150, time := 7/2 }]).map
        ZoneBucketRow.zoneNumber =
      (List.range ([{ min := 90, max := 120, time := -7/2 },
                    { min := 120, max := 150, time := 7/2 }] :
          List TimedZoneRange).length).map (fun (j : Nat) => (j : Int) + 1) ∧
    (bucketRows 5 [{ min := 90, max := 120, time := -7/2 },
                   { min := 120, max := 150, time := 7/2 }])[1]? = some
      { activityZoneId := 5
        zoneNumber := ((1 : Nat) : Int) + 1
        minValue := 120
        maxValue := 150
        timeSeconds := ratTruncTowardZero (7/2) } :=
  bucketRows_spec 5 _ 1 { min := 120, max := 150, time := 7/2 } rfl

/-- Splitting a comma-free string yields that string as the only part. -/
theorem splitOnComma_no_comma (s : List Char) (h : ',' ∉ s) :
    splitOnComma s = [s] := by
  induction s with
  | nil => rfl
  | cons c rest ih =>
    have hc : ¬ c = ',' := fun e => h (by simp [e])
    rw [splitOnComma, if_neg hc, ih (fun hm => h (List.mem_cons_of_mem _ hm))]

/-- Splitting at the first comma: a comma-free prefix becomes the first
part. -/
theorem splitOnComma_append (a b : List Char) (ha : ',' ∉ a) :
    splitOnComma (a ++ ',' :: b) = a :: splitOnComma b := by
  induction a with
  | nil => simp [splitOnComma]
  | cons c rest ih =>
    have hc : ¬ c = ',' := fun e => ha (by simp [e])
    rw [List.cons_append, splitOnComma, if_neg hc,
      ih (fun hm => ha (List.mem_cons_of_mem _ hm))]

/-- A header of the form short,daily parses to the Atoi values of its two
parts. -/
theorem parsePairHeader_pair (a b : List Char) (ha : ',' ∉ a) (hb : ',' ∉ b) :
    parsePairHeader (a ++ ',' :: b) = (goAtoi a, goAtoi b) := by
  rw [parsePairHeader, if_neg (by simp), splitOnComma_append a b ha,
    splitOnComma_no_comma b hb]

/-- On nonnegative inputs the source's minPositive computes exactly the
spec-side restrictive limit. -/
theorem minPositive_eq_spec (a b : Int) (ha : 0 ≤ a) (hb : 0 ≤ b) :
    minPositive a b = specRestrictiveLimit a b := by
  simp only [minPositive, specRestrictiveLimit]
  split_ifs <;> omega

/-- The quota fields of the parsed rate limit state, before the
recommended-wait adjustment is applied: limits merge through minPositive
and usages through max. -/
theorem parseRateLimitHeaders_fields (gLim gUse rLim rUse : List Char) (now : GoTime) :
    (parseRateLimitHeaders gLim gUse rLim rUse now).limit15Min
        = minPositive (parsePairHeader gLim).1 (parsePairHeader rLim).1 ∧
    (parseRateLimitHeaders gLim gUse rLim rUse now).limitDaily
        = minPositive (parsePairHeader gLim).2 (parsePairHeader rLim).2 ∧
    (parseRateLimitHeaders gLim gUse rLim rUse now).usage15Min
        = max (parsePairHeader gUse).1 (parsePairHeader rUse).1 ∧
    (parseRateLimitHeaders gLim gUse rLim rUse now).usageDaily
        = max (parsePairHeader gUse).2 (parsePairHeader rUse).2 := by
  simp only [parseRateLimitHeaders]
  split_ifs <;> simp

/-- C3: for every pair of quota-pair header sources formatted as
short,daily with nonnegative values, the parsed state sets each window's
limit to the minimum of the two sources' limits (zero/absent ignored as no
limit known) and each window's usage to the maximum of the two sources'
usages. -/
theorem parseRateLimitHeaders_merge
    (gl15 gld gu15 gud rl15 rld ru15 rud : Nat)
    (sgl15 sgld sgu15 sgud srl15 srld sru15 srud : List Char) (now : GoTime)
    (h1 : goAtoi sgl15 = gl15) (h2 : goAtoi sgld = gld)
    (h3 : goAtoi sgu15 = gu15) (h4 : goAtoi sgud = gud)
    (h5 : goAtoi srl15 = rl15) (h6 : goAtoi srld = rld)
    (h7 : goAtoi sru15 = ru15) (h8 : goAtoi srud = rud)
    (c1 : ',' ∉ sgl15) (c2 : ',' ∉ sgld) (c3 : ',' ∉ sgu15) (c4 : ',' ∉ sgud)
    (c5 : ',' ∉ srl15) (c6 : ',' ∉ srld) (c7 : ',' ∉ sru15) (c8 : ',' ∉ srud) :
    (parseRateLimitHeaders (sgl15 ++ ',' :: sgld) (sgu15 ++ ',' :: sgud)
        (srl15 ++ ',' :: srld) (sru15 ++ ',' :: srud) now).limit15Min
      = specRestrictiveLimit gl15 rl15 ∧
    (parseRateLimitHeaders (sgl15 ++ ',' :: sgld) (sgu15 ++ ',' :: sgud)
        (srl15 ++ ',' :: srld) (sru15 ++ ',' :: srud) now).limitDaily
      = specRestrictiveLimit gld rld ∧
    (parseRateLimitHeaders (sgl15 ++ ',' :: sgld) (sgu15 ++ ',' :: sgud)
        (srl15 ++ ',' :: srld) (sru15 ++ ',' :: srud) now).usage15Min
      = max (gu15 : Int) (ru15 : Int) ∧
    (parseRateLimitHeaders (sgl15 ++ ',' :: sgld) (sgu15 ++ ',' :: sgud)
        (srl15 ++ ',' :: srld) (sru15 ++ ',' :: srud) now).usageDaily
      = max (gud : Int) (rud : Int) := by
  obtain ⟨f1, f2, f3, f4⟩ := parseRateLimitHeaders_fields
    (sgl15 ++ ',' :: sgld) (sgu15 ++ ',' :: sgud)
    (srl15 ++ ',' :: srld) (sru15 ++ ',' :: srud) now
  rw [f1, f2, f3, f4, parsePairHeader_pair _ _ c1 c2, parsePairHeader_pair _ _ c3 c4,
    parsePairHeader_pair _ _ c5 c6, parsePairHeader_pair _ _ c7 c8]
  rw [h1, h2, h3, h4, h5, h6, h7, h8]
  exact ⟨minPositive_eq_spec _ _ (Int.ofNat_nonneg _) (Int.ofNat_nonneg _),
    minPositive_eq_spec _ _ (Int.ofNat_nonneg _) (Int.ofNat_nonneg _), rfl, rfl⟩

/-- Witness for parseRateLimitHeaders_merge: general headers 600,30000 and
100,1000, read headers 300,3000 and 150,800; the merged limits are 300 and
3000 and the merged usages 150 and 1000. -/
theorem parseRateLimitHeaders_merge_witness :
    (parseRateLimitHeaders
        (['6', '0', '0'] ++ ',' :: ['3', '0', '0', '0', '0'])
        (['1', '0', '0'] ++ ',' :: ['1', '0', '0', '0'])
        (['3', '0', '0'] ++ ',' :: ['3', '0', '0', '0'])
        (['1', '5', '0'] ++ ',' :: ['8', '0', '0'])
        { hour := 10, minute := 0, second := 0, nano := 0 }).limit15Min
      = specRestrictiveLimit 600 300 ∧
    (parseRateLimitHeaders
        (['6', '0', '0'] ++ ',' :: ['3', '0', '0', '0', '0'])
        (['1', '0', '0'] ++ ',' :: ['1', '0', '0', '0'])
        (['3', '0', '0'] ++ ',' :: ['3', '0', '0', '0'])
        (['1', '5', '0'] ++ ',' :: ['8', '0', '0'])
        { hour := 10, minute := 0, second := 0, nano := 0 }).limitDaily
      = specRestrictiveLimit 30000 3000 ∧
    (parseRateLimitHeaders
        (['6', '0', '0'] ++ ',' :: ['3', '0', '0', '0', '0'])
        (['1', '0', '0'] ++ ',' :: ['1', '0', '0', '0'])
        (['3', '0', '0'] ++ ',' :: ['3', '0', '0', '0'])
        (['1', '5', '0'] ++ ',' :: ['8', '0', '0'])
        { hour := 10, minute := 0, second := 0, nano := 0 }).usage15Min
      = max ((100 : Nat) : Int) ((150 : Nat) : Int) ∧
    (parseRateLimitHeaders
        (['6', '0', '0'] ++ ',' :: ['3', '0', '0', '0', '0'])
        (['1', '0', '0'] ++ ',' :: ['1', '0', '0', '0'])
        (['3', '0', '0'] ++ ',' :: ['3', '0', '0', '0'])
        (['1', '5', '0'] ++ ',' :: ['8', '0', '0'])
        { hour := 10, minute := 0, second := 0, nano := 0 }).usageDaily
      = max ((1000 : Nat) : Int) ((800 : Nat) : Int) :=
  parseRateLimitHeaders_merge 600 30000 100 1000 300 3000 150 800
    _ _ _ _ _ _ _ _ _
    (by decide) (by decide) (by decide) (by decide)
    (by decide) (by decide) (by decide) (by decide)
    (by decide) (by decide) (by decide) (by decide)
    (by decide) (by decide) (by decide) (by decide)

/-- Behaviour of the full-sync page loop on error-free page sequences,
generalized over the starting page and accumulator: the loop accumulates
the leading non-empty pages, ends without error, and reports one progress
result per requested page with consecutive page numbers. -/
theorem fetchAllAux_ok (pages : List (List Activity)) (page : Nat) (acc : List Activity) :
    (fetchAllAux (pages.map PageResult.ok) page acc).1
      = acc ++ (pages.takeWhile (fun q => !q.isEmpty)).flatten ∧
    (fetchAllAux (pages.map PageResult.ok) page acc).2.2 = false ∧
    (fetchAllAux (pages.map PageResult.ok) page acc).2.1.map FetchResult.page
      = List.range' page ((pages.takeWhile (fun q => !q.isEmpty)).length + 1) := by
  induction pages generalizing page acc with
  | nil => simp [fetchAllAux, List.range'_succ]
  | cons p ps ih =>
    obtain ⟨i1, i2, i3⟩ := ih (page + 1) (acc ++ p)
    by_cases hp : p.isEmpty
    · have hpe : p = [] := by simpa using hp
      subst hpe
      simp [fetchAllAux, List.range'_succ]
    · simp only [List.map_cons, fetchAllAux, hp, Bool.false_eq_true, if_false,
        List.takeWhile_cons, Bool.not_eq_true', if_true, ite_true, List.flatten_cons,
        List.length_cons]
      refine ⟨?_, i2, ?_⟩
      · rw [i1, List.append_assoc]
      · rw [List.range'_succ, i3]

/-- C2: the full-sync loop requests pages sequentially starting at page 1,
terminates the first time a page returns zero items, accumulates all items
across pages, and invokes the progress callback exactly once after every
page including the final empty page; in particular for pages of 2, 1 and 0
items it returns 3 accumulated items with exactly 3 progress invocations. -/
theorem fetchAllActivities_pagination (pages : List (List Activity)) (a b c : Activity) :
    (fetchAllActivities (pages.map PageResult.ok)).1
      = (pages.takeWhile (fun q => !q.isEmpty)).flatten ∧
    (fetchAllActivities (pages.map PageResult.ok)).2.2 = false ∧
    (fetchAllActivities (pages.map PageResult.ok)).2.1.map FetchResult.page
      = List.range' 1 ((pages.takeWhile (fun q => !q.isEmpty)).length + 1) ∧
    (fetchAllActivities (pages.map PageResult.ok)).2.1.length
      = (pages.takeWhile (fun q => !q.isEmpty)).length + 1 ∧
    (fetchAllActivities [.ok [a, b], .ok [c], .ok []]).1 = [a, b, c] ∧
    (fetchAllActivities [.ok [a, b], .ok [c], .ok []]).2.1.map FetchResult.page
      = [1, 2, 3] := by
  obtain ⟨i1, i2, i3⟩ := fetchAllAux_ok pages 1 []
  refine ⟨by simpa using i1, i2, i3, ?_, rfl, rfl⟩
  have hlen := congrArg List.length i3
  simpa using hlen

/-- Step equation of the zone sync loop for a successful item: the count
rises, the consecutive rate-limit counter resets, and the loop moves to
the next item. -/
theorem syncZonesAux_success_cons (rest : List ItemEnv) (idx synced c : Nat) :
    syncZonesAux (sOkItem :: rest) idx synced c =
      { syncZonesAux rest (idx + 1) (synced + 1) 0 with
        attempts := idx :: (syncZonesAux rest (idx + 1) (synced + 1) 0).attempts } := rfl

/-- Step equation of the zone sync loop for a rate-limited item below the
circuit-breaker threshold: the counter rises and the loop moves to the
next item. -/
theorem syncZonesAux_rl_cons (rest : List ItemEnv) (idx synced c : Nat)
    (h : c + 1 < maxConsecutiveRateLimits) :
    syncZonesAux (rlItem :: rest) idx synced c =
      { syncZonesAux rest (idx + 1) synced (c + 1) with
        attempts := idx :: (syncZonesAux rest (idx + 1) synced (c + 1)).attempts } := by
  have hn : ¬ c + 1 ≥ maxConsecutiveRateLimits := by omega
  simp [syncZonesAux, rlItem, hn]

/-- Three consecutive rate-limited items starting at a zero counter halt
the run with the current count, regardless of the remaining backlog. -/
theorem syncZonesAux_rl_triple (rest : List ItemEnv) (idx synced : Nat) :
    syncZonesAux (rlItem :: rlItem :: rlItem :: rest) idx synced 0 =
      { synced := synced, attempts := [idx, idx + 1, idx + 2],
        err := some .rateLimited } := by
  rw [syncZonesAux_rl_cons _ _ _ 0 (by simp [maxConsecutiveRateLimits]),
    syncZonesAux_rl_cons _ _ _ 1 (by simp [maxConsecutiveRateLimits])]
  simp [syncZonesAux, rlItem, maxConsecutiveRateLimits]

/-- Running the loop over a block of successful items accumulates their
count and their indices, then continues with a reset counter. -/
theorem syncZonesAux_replicate_success (k : Nat) (rest : List ItemEnv) (idx synced : Nat) :
    syncZonesAux (List.replicate k sOkItem ++ rest) idx synced 0 =
      { syncZonesAux rest (idx + k) (synced + k) 0 with
        attempts :=
          List.range' idx k ++ (syncZonesAux rest (idx + k) (synced + k) 0).attempts } := by
  induction k generalizing idx synced with
  | zero => simp
  | succ n ih =>
    have hsplit : List.replicate (n + 1) sOkItem ++ rest
        = sOkItem :: (List.replicate n sOkItem ++ rest) := by
      simp [List.replicate_succ]
    rw [hsplit, syncZonesAux_success_cons, ih (idx + 1) (synced + 1), List.range'_succ]
    have h1 : idx + 1 + n = idx + (n + 1) := by omega
    have h2 : synced + 1 + n = synced + (n + 1) := by omega
    simp [h1, h2]

/-- C5: within one batch run, k successes followed by 3 consecutive
rate-limited attempts halt the run with the count synced so far (k) and
without attempting the rest of the backlog; a success in between resets
the consecutive counter (two pairs of rate limits split by successes do
not trip the breaker); the counter is a local of each run, so a
subsequent run starts at zero. -/
theorem syncZones_circuit_breaker (k : Nat) (rest : List ItemEnv) :
    syncZonesRun (List.replicate k sOkItem ++ rlItem :: rlItem :: rlItem :: rest) =
      { synced := k, attempts := List.range (k + 3), err := some .rateLimited } ∧
    syncZonesRun [rlItem, rlItem, sOkItem, rlItem, rlItem, sOkItem] =
      { synced := 2, attempts := [0, 1, 2, 3, 4, 5], err := none } := by
  constructor
  · rw [syncZonesRun, syncZonesAux_replicate_success k _ 0 0, syncZonesAux_rl_triple]
    have hr : List.range (k + 3) = List.range' 0 k ++ [k, k + 1, k + 2] := by
      rw [List.range_eq_range', Nat.add_comm k 3, ← List.range'_append 0 k 3 1]
      simp [List.range'_succ]
    simp [hr]
  · rfl

/-- C7 counterexample: with a backlog of a rate-limited item followed by a
successful one, the run attempts item 0 exactly once and then moves on to
item 1; the rate-limited item is not retried. -/
theorem syncZones_rateLimited_counterexample :
    syncZonesRun [rlItem, sOkItem] = { synced := 1, attempts := [0, 1], err := none } ∧
    (syncZonesRun [rlItem, sOkItem]).attempts.count 0 = 1 := ⟨rfl, rfl⟩

/-- The loop attempts the head of a non-empty remaining backlog next. -/
theorem syncZonesAux_attempts_head (items : List ItemEnv) (idx synced c : Nat)
    (h : items ≠ []) :
    ∃ t, (syncZonesAux items idx synced c).attempts = idx :: t := by
  match items with
  | [] => exact absurd rfl h
  | it :: rest =>
    rcases ho : it.outcome with _ | _ | _ | _ <;>
      simp only [syncZonesAux, ho] <;>
      first
        | exact ⟨_, rfl⟩
        | (split_ifs <;> exact ⟨_, rfl⟩)

/-- Every index attempted by the loop is at least the starting index. -/
theorem syncZonesAux_attempts_ge (items : List ItemEnv) :
    ∀ idx synced c, ∀ j ∈ (syncZonesAux items idx synced c).attempts, idx ≤ j := by
  induction items with
  | nil => intro idx synced c j hj; simp [syncZonesAux] at hj
  | cons it rest ih =>
    intro idx synced c j hj
    cases ho : it.outcome with
    | premiumRequired =>
      simp only [syncZonesAux, ho] at hj
      simp only [List.mem_singleton] at hj
      omega
    | rateLimited =>
      simp only [syncZonesAux, ho] at hj
      split_ifs at hj
      · simp only [List.mem_singleton] at hj
        omega
      · simp only [List.mem_cons] at hj
        rcases hj with rfl | hj
        · omega
        · have := ih (idx + 1) synced _ j hj
          omega
    | otherError =>
      simp only [syncZonesAux, ho] at hj
      simp only [List.mem_cons] at hj
      rcases hj with rfl | hj
      · omega
      · have := ih (idx + 1) synced 0 j hj
        omega
    | success =>
      simp only [syncZonesAux, ho] at hj
      split_ifs at hj
      · simp only [List.mem_singleton] at hj
        omega
      · simp only [List.mem_cons] at hj
        rcases hj with rfl | hj
        · omega
        · have := ih (idx + 1) (synced + 1) 0 j hj
          omega

/-- C7 amended: when an item attempt is rate limited below the
circuit-breaker threshold, the run performs no quota wait and does not
retry that item; it continues with the next backlog item, and the
rate-limited item is attempted exactly once in the run. -/
theorem syncZones_rateLimited_moves_on (rest : List ItemEnv) (h : rest ≠ []) :
    (syncZonesRun (rlItem :: rest)).attempts.take 2 = [0, 1] ∧
    (syncZonesRun (rlItem :: rest)).attempts.count 0 = 1 := by
  have hstep : (syncZonesRun (rlItem :: rest)).attempts
      = 0 :: (syncZonesAux rest 1 0 1).attempts := by
    rw [syncZonesRun, syncZonesAux_rl_cons rest 0 0 0 (by simp [maxConsecutiveRateLimits])]
  obtain ⟨t, ht⟩ := syncZonesAux_attempts_head rest 1 0 1 h
  have hge := syncZonesAux_attempts_ge rest 1 0 1
  have h0 : 0 ∉ (syncZonesAux rest 1 0 1).attempts := by
    intro hm
    have := hge 0 hm
    omega
  rw [hstep]
  constructor
  · simp [ht]
  · simp [List.count_cons, List.count_eq_zero.mpr h0]

/-- Witness for syncZones_rateLimited_moves_on: one rate-limited item then
one successful item. -/
theorem syncZones_rateLimited_moves_on_witness :
    (syncZonesRun (rlItem :: [sOkItem])).attempts.take 2 = [0, 1] ∧
    (syncZonesRun (rlItem :: [sOkItem])).attempts.count 0 = 1 :=
  syncZones_rateLimited_moves_on [sOkItem] (by simp)

/-- A disabled zone syncer skips a run entirely: no batch calls, state
unchanged. -/
theorem syncZonesContinuously_disabled (s : ZoneSyncerState) (e : RunEnv)
    (h : s.premiumRequired = true) :
    syncZonesContinuously s e = (s, 0) := by
  simp [syncZonesContinuously, h]

/-- A disabled zone syncer stays disabled and issues no batch calls across
any sequence of subsequent runs. -/
theorem runSequence_disabled (s : ZoneSyncerState) (es : List RunEnv)
    (h : s.premiumRequired = true) :
    runSequence s es = (s, 0) := by
  induction es with
  | nil => rfl
  | cons e es ih => simp [runSequence, syncZonesContinuously_disabled s e h, ih]

/-- C4: once a run observes a feature-unavailable batch outcome, the syncer
enters the disabled state, and across every sequence of subsequent
scheduled runs it stays disabled and issues zero enrichment batch calls
for the remainder of the process lifetime. -/
theorem zoneSyncer_permanent_disable (s : ZoneSyncerState) (e : RunEnv) (es : List RunEnv)
    (hc : e.countErr = false) (hn : e.countWithoutZones ≠ 0) (ht : e.tokenErr = false)
    (hobs : (zoneLoop s.batchSize e.steps e.countWithoutZones).1 = true) :
    (syncZonesContinuously s e).1.premiumRequired = true ∧
    runSequence (syncZonesContinuously s e).1 es = ((syncZonesContinuously s e).1, 0) := by
  have h1 : (syncZonesContinuously s e).1.premiumRequired = true := by
    by_cases hp : s.premiumRequired = true
    · simp [syncZonesContinuously, hp]
    · simp [syncZonesContinuously, hp, hc, hn, ht, hobs]
  exact ⟨h1, runSequence_disabled _ es h1⟩

/-- Witness for zoneSyncer_permanent_disable: a fresh syncer whose first
batch reports feature-unavailable, followed by one more scheduled run. -/
theorem zoneSyncer_permanent_disable_witness :
    (syncZonesContinuously { premiumRequired := false, batchSize := 25 }
        { countWithoutZones := 5, countErr := false, tokenErr := false,
          steps := [{ approachingDaily := false, approaching15 := false,
                      waitCancelled := false, batch := .premiumRequired,
                      pacingCancelled := false }] }).1.premiumRequired = true ∧
    runSequence
        (syncZonesContinuously { premiumRequired := false, batchSize := 25 }
          { countWithoutZones := 5, countErr := false, tokenErr := false,
            steps := [{ approachingDaily := false, approaching15 := false,
                        waitCancelled := false, batch := .premiumRequired,
                        pacingCancelled := false }] }).1
        [{ countWithoutZones := 5, countErr := false, tokenErr := false,
           steps := [{ approachingDaily := false, approaching15 := false,
                       waitCancelled := false, batch := .premiumRequired,
                       pacingCancelled := false }] }]
      = ((syncZonesContinuously { premiumRequired := false, batchSize := 25 }
          { countWithoutZones := 5, countErr := false, tokenErr := false,
            steps := [{ approachingDaily := false, approaching15 := false,
                        waitCancelled := false, batch := .premiumRequired,
                        pacingCancelled := false }] }).1, 0) :=
  zoneSyncer_permanent_disable _ _ _ rfl (by decide) rfl rfl

/-- C6 counterexample: in the persistence loop of Service.Sync a single
failing record aborts the remaining batch: with a failing first record and
a healthy second, only one record is attempted, nothing further is saved,
and the error is returned. -/
theorem serviceSyncPersist_abort_counterexample :
    serviceSyncPersist
      [{ id := 1, persistOk := false, cancelledBefore := false },
       { id := 2, persistOk := true, cancelledBefore := false }] = (1, 0, true) := rfl

/-- Helper for C6: without cancellation the worker persistence loop
attempts every fetched record, saving exactly the records whose upsert
succeeds. -/
theorem workerPersistLoop_skips (items : List PersistItem)
    (hnc : ∀ it ∈ items, it.cancelledBefore = false) :
    workerPersistLoop items =
      (items.length, (items.filter (fun it => it.persistOk)).length, false) := by
  induction items with
  | nil => rfl
  | cons it rest ih =>
    have h1 : it.cancelledBefore = false := hnc it (List.mem_cons_self it rest)
    have h2 : ∀ x ∈ rest, x.cancelledBefore = false :=
      fun x hx => hnc x (List.mem_cons_of_mem it hx)
    by_cases hp : it.persistOk = true
    · simp [workerPersistLoop, h1, hp, ih h2, List.filter_cons]
    · simp [workerPersistLoop, h1, hp, ih h2, List.filter_cons]

/-- Helper for C6: the Service.Sync persistence loop stops at the first
failing record, leaving the rest of the batch unattempted. -/
theorem serviceSyncPersist_aborts (pre suf : List PersistItem) (bad : PersistItem)
    (hpre : ∀ it ∈ pre, it.persistOk = true) (hbad : bad.persistOk = false) :
    serviceSyncPersist (pre ++ bad :: suf) = (pre.length + 1, pre.length, true) := by
  induction pre with
  | nil => simp [serviceSyncPersist, hbad]
  | cons p rest ih =>
    have h1 : p.persistOk = true := hpre p (List.mem_cons_self p rest)
    have h2 : ∀ x ∈ rest, x.persistOk = true :=
      fun x hx => hpre x (List.mem_cons_of_mem p hx)
    simp [serviceSyncPersist, h1, ih h2]

/-- C6 amended: in the background worker persistence loops an individual
record's failure is logged and skipped and every fetched record is still
attempted, while in the persistence loops of Service.Sync and
Service.SyncDelta the first failing record aborts the remaining batch and
surfaces the error. -/
theorem persistence_failure_semantics (items pre suf : List PersistItem)
    (bad : PersistItem)
    (hnc : ∀ it ∈ items, it.cancelledBefore = false)
    (hpre : ∀ it ∈ pre, it.persistOk = true) (hbad : bad.persistOk = false) :
    workerPersistLoop items
      = (items.length, (items.filter (fun it => it.persistOk)).length, false) ∧
    serviceSyncPersist (pre ++ bad :: suf) = (pre.length + 1, pre.length, true) :=
  ⟨workerPersistLoop_skips items hnc, serviceSyncPersist_aborts pre suf bad hpre hbad⟩

/-- Witness for persistence_failure_semantics: three fetched records whose
middle upsert fails. -/
theorem persistence_failure_semantics_witness :
    workerPersistLoop
        [{ id := 1, persistOk := true, cancelledBefore := false },
         { id := 2, persistOk := false, cancelledBefore := false },
         { id := 3, persistOk := true, cancelledBefore := false }] = (3, 2, false) ∧
    serviceSyncPersist
        ([{ id := 1, persistOk := true, cancelledBefore := false }] ++
          { id := 2, persistOk := false, cancelledBefore := false } ::
          [{ id := 3, persistOk := true, cancelledBefore := false }]) = (2, 1, true) := by
  exact persistence_failure_semantics _ _ _ _ (by decide) (by decide) (by decide)

end StravaMCP
